import Mathlib

/-!
Shallow embedding of the `introship` company-enrichment pipeline
(`src/app/api/companies/route.ts` and the presentation decoder in
`src/app/components/CompanyTable.tsx`).

JavaScript specifics that the embedding preserves:
* `||` chains use JS truthiness: `undefined`/`null` and the empty string
  are falsy, so an empty-string field falls through to the next lookup.
  Absent fields are modelled as `none`, present strings as `some s`.
* `String.prototype.trim` strips whitespace from both ends; modelled over
  the character list with the common whitespace characters.
* `substring(0, n)` is modelled as taking the first `n` characters.
* numbers from the JSON body are modelled as rationals (`ℚ`); `0` is
  falsy in JS, which the model keeps.
-/

/-- JS whitespace test used by `trim` (space, tab, newline, carriage return). -/
def jsIsWs (c : Char) : Bool := c = ' ' || c = '\t' || c = '\n' || c = '\r'

/-- Model of `String.prototype.trim`: drop whitespace from both ends. -/
def jsTrim (s : String) : String :=
  ⟨((s.data.dropWhile jsIsWs).reverse.dropWhile jsIsWs).reverse⟩

/-- Model of `s.substring(0, n)`: the first `n` characters of `s`. -/
def jsTake (s : String) (n : Nat) : String := ⟨s.data.take n⟩

/-- `pre` is a prefix of the second list (character-by-character). -/
def listHasPre : List Char → List Char → Bool
  | [], _ => true
  | _ :: _, [] => false
  | c :: cs, d :: ds => (c == d) && listHasPre cs ds

/-- Model of `s.startsWith(pre)` from JS. -/
def jsStartsWith (s pre : String) : Bool := listHasPre pre.data s.data

/-- `needle` occurs contiguously inside the character list. -/
def listHasSub (needle : List Char) : List Char → Bool
  | [] => listHasPre needle []
  | d :: ds => listHasPre needle (d :: ds) || listHasSub needle ds

/-- Model of `hay.includes(needle)` from JS. -/
def jsIncludes (hay needle : String) : Bool := listHasSub needle.data hay.data

/-- JS truthiness of a possibly-absent string: absent and `""` are falsy. -/
def truthy : Option String → Bool
  | none => false
  | some s => !(s == "")

/-- Model of the JS expression `a || b` for possibly-absent strings:
if `a` is truthy its value is kept, otherwise the chain continues with `b`.
A trailing `|| null` is modelled by passing `none` for `b`, which also
absorbs a final falsy `some ""` into `none` exactly as JS coerces
`"" || null` to `null`. -/
def jsOrOpt (a b : Option String) : Option String :=
  match a with
  | none => b
  | some s => if s = "" then b else some s

/-! ## Raw place records (Geoapify feature shape)

Only the fields the pipeline reads are modelled.  `contact:email`,
`contact:website` are the flattened raw-datasource keys
`raw['contact:email']` / `raw['contact:website']`. -/

structure Contact where
  email : Option String := none
  website : Option String := none
  deriving DecidableEq, Repr

structure RawDS where
  contact : Option Contact := none
  contactEmailKey : Option String := none
  contactWebsiteKey : Option String := none
  website : Option String := none
  deriving DecidableEq, Repr

structure Datasource where
  raw : Option RawDS := none
  deriving DecidableEq, Repr

structure Properties where
  name : Option String := none
  formatted : Option String := none
  lat : Option ℚ := none
  lon : Option ℚ := none
  contact : Option Contact := none
  datasource : Option Datasource := none
  deriving DecidableEq, Repr

structure RawPlace where
  properties : Properties
  deriving DecidableEq, Repr

/-- `company.properties.contact?.email` -/
def contactEmail (p : RawPlace) : Option String :=
  p.properties.contact.bind (·.email)

/-- `company.properties.datasource?.raw?.contact?.email` -/
def dsRawContactEmail (p : RawPlace) : Option String :=
  ((p.properties.datasource.bind (·.raw)).bind (·.contact)).bind (·.email)

/-- `company.properties.datasource?.raw?.['contact:email']` -/
def dsRawFlatEmail (p : RawPlace) : Option String :=
  (p.properties.datasource.bind (·.raw)).bind (·.contactEmailKey)

/-- `company.properties.contact?.website` -/
def contactWebsite (p : RawPlace) : Option String :=
  p.properties.contact.bind (·.website)

/-- `company.properties.datasource?.raw?.contact?.website` -/
def dsRawContactWebsite (p : RawPlace) : Option String :=
  ((p.properties.datasource.bind (·.raw)).bind (·.contact)).bind (·.website)

/-- `company.properties.datasource?.raw?.['contact:website']` -/
def dsRawFlatWebsite (p : RawPlace) : Option String :=
  (p.properties.datasource.bind (·.raw)).bind (·.contactWebsiteKey)

/-- `company.properties.datasource?.raw?.website` -/
def dsRawPlainWebsite (p : RawPlace) : Option String :=
  (p.properties.datasource.bind (·.raw)).bind (·.website)

/-- The predicate of `filterCompaniesWithEmails`: the JS truthiness of
`contact?.email || datasource?.raw?.contact?.email || datasource?.raw?.['contact:email']`. -/
def hasEmail (p : RawPlace) : Bool :=
  truthy (contactEmail p) || truthy (dsRawContactEmail p) || truthy (dsRawFlatEmail p)

/-- `filterCompaniesWithEmails` from `route.ts`. -/
def filterCompaniesWithEmails (companies : List RawPlace) : List RawPlace :=
  companies.filter hasEmail

/-- `extractEmail` from `route.ts`: the same three lookups joined by `||`,
with a trailing `|| null`. -/
def extractEmail (p : RawPlace) : Option String :=
  jsOrOpt (contactEmail p) (jsOrOpt (dsRawContactEmail p) (jsOrOpt (dsRawFlatEmail p) none))

/-- `extractWebsite` from `route.ts`: four lookups joined by `||`,
with a trailing `|| null`. -/
def extractWebsite (p : RawPlace) : Option String :=
  jsOrOpt (contactWebsite p)
    (jsOrOpt (dsRawContactWebsite p)
      (jsOrOpt (dsRawFlatWebsite p) (jsOrOpt (dsRawPlainWebsite p) none)))

/-- Spec-side definition (from the spec's words, §4.2/§4.3): resolve a field
by scanning an ordered list of lookup locations and returning the first
non-empty match; absence in all locations yields `none`. -/
def specFirstNonEmpty : List (Option String) → Option String
  | [] => none
  | none :: rest => specFirstNonEmpty rest
  | some s :: rest => if s = "" then specFirstNonEmpty rest else some s

/-! ## HTML content extraction (the body of `scrapeWebsite`'s success path)

A parsed document is modelled by the text cheerio would report for each
selector the code queries, in document order:
`paragraphs` the texts of the `p` elements, `metaDescription` the
`content` attribute of `meta[name="description"]` (absent when the tag
or attribute is missing), `headings` the texts of `h1, h2, h3`,
`contentDivs` the texts of the divs matching the curated
content-class/id selector list, and `divs` the texts of all divs. -/

structure Doc where
  paragraphs : List String := []
  metaDescription : Option String := none
  headings : List String := []
  contentDivs : List String := []
  divs : List String := []
  deriving DecidableEq, Repr

/-- Strategy 5: `$('div').filter(text.trim().length > 40).first().text().trim()`,
falling back to the sentinel when the filtered set is empty (an empty
selection's text is `""`, which is falsy). -/
def extractStep5 (d : Doc) : String :=
  match d.divs.find? (fun t => 40 < (jsTrim t).length) with
  | some t => jsTrim t
  | none => "No meaningful content found"

/-- Strategy 4: curated content-class/id divs, trimmed text over 40 chars,
first 300 characters returned. -/
def extractStep4 (d : Doc) : String :=
  match d.contentDivs.find? (fun t => 40 < (jsTrim t).length) with
  | some t => jsTake (jsTrim t) 300
  | none => extractStep5 d

/-- Strategy 3: first of `h1, h2, h3` whose trimmed text is over 10 chars. -/
def extractStep3 (d : Doc) : String :=
  match d.headings.find? (fun t => 10 < (jsTrim t).length) with
  | some t => jsTrim t
  | none => extractStep4 d

/-- Strategy 2: `metaDescription && metaDescription.length > 20` — the length
test is on the RAW attribute value; only the returned value is trimmed.
(An absent attribute is `none`; `""` fails the length test anyway.) -/
def extractStep2 (d : Doc) : String :=
  match d.metaDescription with
  | some m => if 20 < m.length then jsTrim m else extractStep3 d
  | none => extractStep3 d

/-- The whole extraction cascade of `scrapeWebsite` (route.ts lines 119–156):
strategy 1 is the first paragraph whose trimmed text is over 30 chars. -/
def extractDoc (d : Doc) : String :=
  match d.paragraphs.find? (fun t => 30 < (jsTrim t).length) with
  | some t => jsTrim t
  | none => extractStep2 d

/-! ## `scrapeWebsite` fetch/retry loop

The network is abstracted as a behaviour `Nat → FetchRes` giving the
outcome of the fetch on each attempt (1-based).  An axios error carries
an optional `code` and an optional `message`.  The run records the value
returned, the number of fetch calls made, and the list of inter-attempt
delays (each 1000 ms in the code). -/

inductive FetchRes where
  | ok (doc : Doc)
  | err (code : Option String) (msg : Option String)
  deriving DecidableEq, Repr

/-- The retry test of route.ts line 160:
`error.code === 'ECONNABORTED' || error.message?.includes('timeout')`
(an absent message makes the right disjunct falsy). -/
def retryable (code msg : Option String) : Bool :=
  (code == some "ECONNABORTED") ||
    (match msg with
     | some m => jsIncludes m "timeout"
     | none => false)

/-- The failure diagnostic of route.ts line 171:
`` `Failed to scrape: ${(lastError as Error).message}` `` — an absent
message interpolates as the string `"undefined"`. -/
def failStr (msg : Option String) : String :=
  "Failed to scrape: " ++ msg.getD "undefined"

structure ScrapeRun where
  result : String
  calls : Nat
  waitsMs : List Nat
  deriving DecidableEq, Repr

/-- The `for (attempt = 1; attempt <= maxAttempts; attempt++)` loop of
`scrapeWebsite`, at attempt number `attempt` with `remaining` further
attempts allowed (`remaining = maxAttempts - attempt`).  A success
returns the extraction result; a retryable error with attempts remaining
waits 1000 ms and retries; any other error (or an exhausted budget)
breaks out and returns the failure diagnostic built from the last error. -/
def scrapeGo (behavior : Nat → FetchRes) (attempt : Nat) : Nat → ScrapeRun
  | 0 =>
    match behavior attempt with
    | .ok d => ⟨extractDoc d, 1, []⟩
    | .err _ m => ⟨failStr m, 1, []⟩
  | remaining + 1 =>
    match behavior attempt with
    | .ok d => ⟨extractDoc d, 1, []⟩
    | .err c m =>
      if retryable c m then
        let rest := scrapeGo behavior (attempt + 1) remaining
        ⟨rest.result, rest.calls + 1, 1000 :: rest.waitsMs⟩
      else ⟨failStr m, 1, []⟩

/-- `scrapeWebsite` (route.ts lines 102–172): returns `null` only for a
falsy url; otherwise runs the 3-attempt loop against the (formatted)
url's endpoint behaviour. -/
def scrapeWebsiteModel (behavior : Nat → FetchRes) (url : String) : Option ScrapeRun :=
  if url = "" then none
  else some (scrapeGo behavior 1 2)

/-- URL normalization of route.ts line 106:
`url.startsWith('http') ? url : ` ``https://${url}`` -/
def formatUrl (url : String) : String :=
  if jsStartsWith url "http" then url else "https://" ++ url

/-- Spec-side notion (from the spec's words, §4.4 step 1 / claim C9) of a
URL "carrying a scheme": the presence of the `://` separator. -/
def specHasScheme (url : String) : Bool := jsIncludes url "://"

/-- Spec-side notion (claim C1): a network-level connection error, by its
Node error code. -/
def specIsConnError (code : Option String) : Bool :=
  code == some "ECONNRESET" || code == some "ECONNREFUSED" ||
    code == some "EHOSTUNREACH" || code == some "ENETUNREACH"

/-! ## Places client `fetchNearbyCompanies`

The HTTP transport is abstracted as a function from the request actually
issued to either a feature list or an error; the model also returns the
log of requests issued so that "one request, radius in meters, limit 500"
is checkable. -/

structure PlacesRequest where
  categories : String
  centerLat : ℚ
  centerLon : ℚ
  radiusMeters : ℚ
  limit : Nat
  deriving DecidableEq, Repr

/-- `fetchNearbyCompanies` (route.ts lines 15–37): converts km to meters via
`radiusKm * 1000`, issues one request (categories `commercial`, circular
filter at the center, limit 500), returns its features on success and the
empty list on any error (the `try`/`catch` absorbs every failure). -/
def fetchNearbyCompanies (http : PlacesRequest → Except String (List RawPlace))
    (lat lon radiusKm : ℚ) : List RawPlace × List PlacesRequest :=
  let radiusMeters := radiusKm * 1000
  let req : PlacesRequest := ⟨"commercial", lat, lon, radiusMeters, 500⟩
  match http req with
  | .ok features => (features, [req])
  | .error _ => ([], [req])

/-! ## Orchestrating pipeline (`POST` body, route.ts lines 196–224)

`Promise.all` over `companiesWithEmails.map` resolves positionally, so the
concurrent scrapes are modelled as a deterministic map; the per-item
scrape outcome is abstracted as an oracle `scrape : String → Option String`
(the value `await scrapeWebsite(website)` settles to). -/

structure CompanyRecord where
  name : Option String
  address : Option String
  lat : Option ℚ
  lon : Option ℚ
  website : Option String
  email : Option String
  scrapedContent : Option String
  deriving DecidableEq, Repr

/-- One element of the `Promise.all` map: extract website and email, scrape
when the website is truthy (`website ? await scrapeWebsite(website) : null`;
`extractWebsite` never yields `some ""`, so truthiness is `some`-ness). -/
def toCompanyRecord (scrape : String → Option String) (company : RawPlace) : CompanyRecord :=
  let website := extractWebsite company
  let email := extractEmail company
  { name := company.properties.name
    address := company.properties.formatted
    lat := company.properties.lat
    lon := company.properties.lon
    website := website
    email := email
    scrapedContent :=
      match website with
      | some w => scrape w
      | none => none }

/-- fetch → filter → map portion of the `POST` handler, after the places
have been fetched. -/
def processCompanies (scrape : String → Option String) (places : List RawPlace) :
    List CompanyRecord :=
  (filterCompaniesWithEmails places).map (toCompanyRecord scrape)

/-! ## `POST` handler (route.ts lines 185–229) -/

/-- The parsed JSON body: absent fields are `none`; numbers are rationals.
(`radius = 2.5` is a destructuring default, applied when `radius` is
absent.) -/
structure ReqBody where
  latitude : Option ℚ := none
  longitude : Option ℚ := none
  radius : Option ℚ := none
  deriving DecidableEq, Repr

/-- JS truthiness of a possibly-absent number: absent and `0` are falsy. -/
def numTruthy : Option ℚ → Bool
  | none => false
  | some q => !(q == 0)

inductive PostResponse where
  | badRequest (error : String)
  | ok (companies : List CompanyRecord)
  deriving DecidableEq, Repr

/-- The `POST` handler on a successfully parsed body: the
`if (!latitude || !longitude)` guard, then
`parseFloat(radius.toString())` (identity on a number), then the
fetch/filter/map/scrape pipeline.  (The `catch` branch returning a 500 is
only reachable through exceptions outside this model.) -/
def POSTmodel (http : PlacesRequest → Except String (List RawPlace))
    (scrape : String → Option String) (body : ReqBody) : PostResponse :=
  if !numTruthy body.latitude || !numTruthy body.longitude then
    .badRequest "Latitude and longitude are required"
  else
    let radiusKm := body.radius.getD (5 / 2 : ℚ)
    let fetched := fetchNearbyCompanies http (body.latitude.getD 0) (body.longitude.getD 0) radiusKm
    .ok (processCompanies scrape fetched.1)

/-! ## Presentation decoder `getScrapeStatus` (CompanyTable.tsx lines 34–46) -/

/-- JS `\w` word character: alphanumeric or underscore. -/
def jsWordChar (c : Char) : Bool := c.isAlphanum || c = '_'

/-- The regex search `content.match(/ERROR:\s*(\w+)/)`: scan left to right
for an occurrence of `ERROR:` followed by optional whitespace and at
least one word character; the capture is that word. -/
def errCodeScan : List Char → Option String
  | [] => none
  | c :: rest =>
    if listHasPre "ERROR:".data (c :: rest) then
      let word := (((c :: rest).drop 6).dropWhile jsIsWs).takeWhile jsWordChar
      if word = [] then errCodeScan rest else some ⟨word⟩
    else errCodeScan rest

structure ScrapeStatus where
  success : Bool
  errorCode : Option String
  deriving DecidableEq, Repr

/-- `getScrapeStatus`: `null` → NOT_ATTEMPTED; a string containing
`ERROR:` → failure with the parsed code (or UNKNOWN); an empty-after-trim
string → EMPTY_CONTENT; anything else → success. -/
def getScrapeStatus (content : Option String) : ScrapeStatus :=
  match content with
  | none => ⟨false, some "NOT_ATTEMPTED"⟩
  | some c =>
    if jsIncludes c "ERROR:" then
      ⟨false, some ((errCodeScan c.data).getD "UNKNOWN")⟩
    else if jsTrim c = "" then ⟨false, some "EMPTY_CONTENT"⟩
    else ⟨true, none⟩

/-! ## Concrete sample inputs used to instantiate the theorems -/

/-- A transport stub whose every request fails. -/
def httpDown : PlacesRequest → Except String (List RawPlace) := fun _ => Except.error "network down"

/-- A scrape oracle that never returns content. -/
def noScrape : String → Option String := fun _ => none

/-- An endpoint that times out on every attempt (axios code `ECONNABORTED`). -/
def alwaysTimeout : Nat → FetchRes :=
  fun _ => .err (some "ECONNABORTED") (some "timeout of 15000ms exceeded")

/-- An endpoint whose connection is reset on every attempt
(Node code `ECONNRESET`, message without the word `timeout`). -/
def connReset : Nat → FetchRes := fun _ => .err (some "ECONNRESET") (some "socket hang up")

/-- An endpoint that answers HTTP 404 on every attempt (axios throws with no
Node error code and a status message). -/
def status404 : Nat → FetchRes :=
  fun _ => .err none (some "Request failed with status code 404")

/-- The structured contact block of the sample place below. -/
def sampleContact : Contact := { email := some "info@acme.io", website := some "acme.io" }

/-- The raw-datasource block of the sample place below, populated at every
lookup location. -/
def sampleRawDS : RawDS :=
  { contact := some { email := some "raw@acme.io", website := some "raw.acme.io" }
    contactEmailKey := some "flat@acme.io"
    contactWebsiteKey := some "flat.acme.io"
    website := some "plain.acme.io" }

/-- A place with email and website values present at every lookup location. -/
def samplePlace : RawPlace :=
  { properties :=
    { name := some "Acme"
      contact := some sampleContact
      datasource := some { raw := some sampleRawDS } } }

/-- A place with no email anywhere (website only). -/
def noEmailPlace : RawPlace :=
  { properties := { contact := some { website := some "nowhere.io" } } }

/-- A document with a long paragraph and a meta description. -/
def sampleDoc : Doc :=
  { paragraphs := ["abcdefghijklmnopqrstuvwxyz0123456789"]
    metaDescription := some "meta description over twenty chars!" }

/-- A document with nothing in it. -/
def emptyDoc : Doc := {}

/-- A document whose only content is a 21-space meta description. -/
def whitespaceMetaDoc : Doc := { metaDescription := some "                     " }

/-- A document with a qualifying 36-character paragraph and a 21-space meta
description: the paragraph strategy fires, so the whitespace-only meta is
never consulted. -/
def paraAndWhitespaceMetaDoc : Doc :=
  { paragraphs := ["abcdefghijklmnopqrstuvwxyz0123456789"]
    metaDescription := some "                     " }

/-- A request body with latitude present but equal to 0. -/
def zeroLatBody : ReqBody := { latitude := some 0, longitude := some 13 }

/-- A request body with nonzero latitude and longitude, radius omitted. -/
def okBody : ReqBody := { latitude := some 1, longitude := some 2 }

/-! ## Helper lemmas -/

theorem jsOrOpt_cons (a : Option String) (rest : List (Option String)) :
    jsOrOpt a (specFirstNonEmpty rest) = specFirstNonEmpty (a :: rest) := by
  cases a with
  | none => simp [jsOrOpt, specFirstNonEmpty]
  | some s => by_cases h : s = "" <;> simp [jsOrOpt, specFirstNonEmpty, h]

theorem specFirstNonEmpty_ne_empty (l : List (Option String)) (s : String)
    (h : specFirstNonEmpty l = some s) : s ≠ "" := by
  induction l with
  | nil => simp [specFirstNonEmpty] at h
  | cons a rest ih =>
    cases a with
    | none =>
      exact ih (by simpa [specFirstNonEmpty] using h)
    | some t =>
      by_cases ht : t = ""
      · exact ih (by simpa [specFirstNonEmpty, ht] using h)
      · have : t = s := by simpa [specFirstNonEmpty, ht] using h
        exact this ▸ ht

theorem specFirstNonEmpty_eq_none_iff (l : List (Option String)) :
    specFirstNonEmpty l = none ↔ ∀ a ∈ l, truthy a = false := by
  induction l with
  | nil => simp [specFirstNonEmpty]
  | cons a rest ih =>
    cases a with
    | none => simp [specFirstNonEmpty, truthy, ih]
    | some t =>
      by_cases ht : t = "" <;>
        simp [specFirstNonEmpty, truthy, ht, ih]

theorem extractEmail_eq_spec (p : RawPlace) :
    extractEmail p =
      specFirstNonEmpty [contactEmail p, dsRawContactEmail p, dsRawFlatEmail p] := by
  unfold extractEmail
  rw [show jsOrOpt (dsRawFlatEmail p) none = specFirstNonEmpty [dsRawFlatEmail p] from
        jsOrOpt_cons _ [], jsOrOpt_cons, jsOrOpt_cons]

theorem extractWebsite_eq_spec (p : RawPlace) :
    extractWebsite p =
      specFirstNonEmpty [contactWebsite p, dsRawContactWebsite p,
        dsRawFlatWebsite p, dsRawPlainWebsite p] := by
  unfold extractWebsite
  rw [show jsOrOpt (dsRawPlainWebsite p) none = specFirstNonEmpty [dsRawPlainWebsite p] from
        jsOrOpt_cons _ [], jsOrOpt_cons, jsOrOpt_cons, jsOrOpt_cons]

theorem hasEmail_iff_spec (p : RawPlace) :
    hasEmail p = true ↔
      specFirstNonEmpty [contactEmail p, dsRawContactEmail p, dsRawFlatEmail p] ≠ none := by
  unfold hasEmail
  rw [Ne, specFirstNonEmpty_eq_none_iff]
  cases h1 : truthy (contactEmail p) <;> cases h2 : truthy (dsRawContactEmail p) <;>
    cases h3 : truthy (dsRawFlatEmail p) <;> simp [h1, h2, h3]

theorem string_ne_empty_of_length_pos {s : String} (h : 0 < s.length) : s ≠ "" := by
  intro he
  subst he
  exact absurd h (by decide)

theorem jsTake_length (s : String) (n : Nat) : (jsTake s n).length = min n s.length := by
  show (s.data.take n).length = min n s.data.length
  exact List.length_take n s.data

theorem jsTake_ne_empty {s : String} {n : Nat} (hn : 0 < n) (hs : 0 < s.length) :
    jsTake s n ≠ "" := by
  apply string_ne_empty_of_length_pos
  rw [jsTake_length]
  omega

theorem scrapeGo_calls_le (b : Nat → FetchRes) :
    ∀ remaining attempt, (scrapeGo b attempt remaining).calls ≤ remaining + 1 := by
  intro remaining
  induction remaining with
  | zero =>
    intro a
    cases h : b a <;> simp [scrapeGo, h]
  | succ r ih =>
    intro a
    cases h : b a with
    | ok d => simp [scrapeGo, h]
    | err c m =>
      cases hr : retryable c m <;> simp [scrapeGo, h, hr]
      have := ih (a + 1)
      omega

/-! ## Claim theorems -/

/-- C2: a raw place is retained by `filterCompaniesWithEmails` iff an email is
resolvable from one of the three lookup locations in priority order
(structured contact, raw-datasource structured contact, raw-datasource
flattened key), the mapper's `extractEmail` resolves exactly that
first-match email (which is non-empty), and every record produced by the
pipeline carries a non-null email. -/
theorem c2_email_filter_and_mapper (l : List RawPlace) (p : RawPlace) :
    (p ∈ filterCompaniesWithEmails l ↔
      p ∈ l ∧
        specFirstNonEmpty [contactEmail p, dsRawContactEmail p, dsRawFlatEmail p] ≠ none)
    ∧ extractEmail p =
        specFirstNonEmpty [contactEmail p, dsRawContactEmail p, dsRawFlatEmail p]
    ∧ (∀ s, extractEmail p = some s → s ≠ "")
    ∧ (∀ scrape r, r ∈ processCompanies scrape l → r.email ≠ none) := by
  refine ⟨?_, extractEmail_eq_spec p, ?_, ?_⟩
  · rw [filterCompaniesWithEmails, List.mem_filter, hasEmail_iff_spec]
  · intro s hs
    rw [extractEmail_eq_spec] at hs
    exact specFirstNonEmpty_ne_empty _ s hs
  · intro scrape r hr
    rw [processCompanies, List.mem_map] at hr
    obtain ⟨c, hc, hfc⟩ := hr
    subst hfc
    rw [filterCompaniesWithEmails, List.mem_filter] at hc
    have hspec := (hasEmail_iff_spec c).mp hc.2
    show extractEmail c ≠ none
    rw [extractEmail_eq_spec]
    exact hspec

/-- C2 witness: a concrete place with emails at all three locations is
retained and resolves to the structured-contact email. -/
theorem c2_email_filter_and_mapper_witness :
    extractEmail samplePlace = some "info@acme.io"
    ∧ samplePlace ∈ filterCompaniesWithEmails [samplePlace, noEmailPlace] := by
  constructor
  · rw [(c2_email_filter_and_mapper [samplePlace, noEmailPlace] samplePlace).2.1]
    decide
  · exact ((c2_email_filter_and_mapper [samplePlace, noEmailPlace] samplePlace).1).mpr
      ⟨List.mem_cons_self _ _, by decide⟩

/-- C7: `extractWebsite` is the first non-empty match over the four lookup
locations in priority order; the highest-priority non-empty value wins,
and all-absent (or all-empty) yields `none`. -/
theorem c7_website_priority (p : RawPlace) :
    extractWebsite p =
      specFirstNonEmpty [contactWebsite p, dsRawContactWebsite p,
        dsRawFlatWebsite p, dsRawPlainWebsite p]
    ∧ (∀ s, contactWebsite p = some s → s ≠ "" → extractWebsite p = some s)
    ∧ ((truthy (contactWebsite p) = false ∧ truthy (dsRawContactWebsite p) = false ∧
          truthy (dsRawFlatWebsite p) = false ∧ truthy (dsRawPlainWebsite p) = false) →
        extractWebsite p = none) := by
  refine ⟨extractWebsite_eq_spec p, ?_, ?_⟩
  · intro s hs hne
    rw [extractWebsite_eq_spec, hs]
    simp [specFirstNonEmpty, hne]
  · rintro ⟨h1, h2, h3, h4⟩
    rw [extractWebsite_eq_spec]
    simp [specFirstNonEmpty_eq_none_iff, h1, h2, h3, h4]

/-- C7 witness: with websites present at all four locations, the
structured-contact one is returned. -/
theorem c7_website_priority_witness : extractWebsite samplePlace = some "acme.io" :=
  (c7_website_priority samplePlace).2.1 "acme.io" (by decide) (by decide)

/-- C10: the pipeline output is a sublist of the per-place records taken in
provider order — filtering removes elements without reordering and the
per-item scrapes are joined positionally, so the relative order of the
source places is preserved in the output. -/
theorem c10_pipeline_preserves_order (scrape : String → Option String)
    (places : List RawPlace) :
    List.Sublist (processCompanies scrape places) (places.map (toCompanyRecord scrape)) := by
  unfold processCompanies
  exact List.Sublist.map (toCompanyRecord scrape) (List.filter_sublist places)

theorem extractStep5_ne_empty (d : Doc) : extractStep5 d ≠ "" := by
  unfold extractStep5
  cases h : d.divs.find? (fun t => 40 < (jsTrim t).length) with
  | some t =>
    have hlen := List.find?_some h
    simp at hlen
    show jsTrim t ≠ ""
    apply string_ne_empty_of_length_pos
    omega
  | none => decide

theorem extractStep4_ne_empty (d : Doc) : extractStep4 d ≠ "" := by
  unfold extractStep4
  cases h : d.contentDivs.find? (fun t => 40 < (jsTrim t).length) with
  | some t =>
    have hlen := List.find?_some h
    simp at hlen
    show jsTake (jsTrim t) 300 ≠ ""
    apply jsTake_ne_empty <;> omega
  | none => exact extractStep5_ne_empty d

theorem extractStep3_ne_empty (d : Doc) : extractStep3 d ≠ "" := by
  unfold extractStep3
  cases h : d.headings.find? (fun t => 10 < (jsTrim t).length) with
  | some t =>
    have hlen := List.find?_some h
    simp at hlen
    show jsTrim t ≠ ""
    apply string_ne_empty_of_length_pos
    omega
  | none => exact extractStep4_ne_empty d

/-- C3: the extraction cascade applies its five strategies in exact priority
order with the exact thresholds 30/20/10/40 and the 300-character cap: a
qualifying paragraph wins over everything; failing that, a raw
meta-description longer than 20 wins over headings; failing that, a
heading trimmed-longer than 10 wins over content-class divs; failing
that, a content-class div trimmed-longer than 40 yields its first 300
characters; failing that, any div trimmed-longer than 40 is used. -/
theorem c3_extraction_strategy_order (d : Doc) :
    (∀ t, d.paragraphs.find? (fun t => 30 < (jsTrim t).length) = some t →
        extractDoc d = jsTrim t)
    ∧ (d.paragraphs.find? (fun t => 30 < (jsTrim t).length) = none →
        ∀ m, d.metaDescription = some m → 20 < m.length → extractDoc d = jsTrim m)
    ∧ (d.paragraphs.find? (fun t => 30 < (jsTrim t).length) = none →
        (∀ m, d.metaDescription = some m → ¬ 20 < m.length) →
        ∀ t, d.headings.find? (fun t => 10 < (jsTrim t).length) = some t →
        extractDoc d = jsTrim t)
    ∧ (d.paragraphs.find? (fun t => 30 < (jsTrim t).length) = none →
        (∀ m, d.metaDescription = some m → ¬ 20 < m.length) →
        d.headings.find? (fun t => 10 < (jsTrim t).length) = none →
        ∀ t, d.contentDivs.find? (fun t => 40 < (jsTrim t).length) = some t →
        extractDoc d = jsTake (jsTrim t) 300)
    ∧ (d.paragraphs.find? (fun t => 30 < (jsTrim t).length) = none →
        (∀ m, d.metaDescription = some m → ¬ 20 < m.length) →
        d.headings.find? (fun t => 10 < (jsTrim t).length) = none →
        d.contentDivs.find? (fun t => 40 < (jsTrim t).length) = none →
        ∀ t, d.divs.find? (fun t => 40 < (jsTrim t).length) = some t →
        extractDoc d = jsTrim t) := by
  refine ⟨?_, ?_, ?_, ?_, ?_⟩
  · intro t h
    simp [extractDoc, h]
  · intro hp m hm hlen
    simp [extractDoc, hp, extractStep2, hm, hlen]
  · intro hp hmeta t h
    cases hm : d.metaDescription with
    | none => simp [extractDoc, hp, extractStep2, hm, extractStep3, h]
    | some m =>
      have := hmeta m hm
      simp [extractDoc, hp, extractStep2, hm, this, extractStep3, h]
  · intro hp hmeta hh t h
    cases hm : d.metaDescription with
    | none => simp [extractDoc, hp, extractStep2, hm, extractStep3, hh, extractStep4, h]
    | some m =>
      have := hmeta m hm
      simp [extractDoc, hp, extractStep2, hm, this, extractStep3, hh, extractStep4, h]
  · intro hp hmeta hh hc t h
    cases hm : d.metaDescription with
    | none =>
      simp [extractDoc, hp, extractStep2, hm, extractStep3, hh, extractStep4, hc,
        extractStep5, h]
    | some m =>
      have := hmeta m hm
      simp [extractDoc, hp, extractStep2, hm, this, extractStep3, hh, extractStep4, hc,
        extractStep5, h]

/-- C3 witness: a document with a 36-character paragraph and a qualifying
meta-description returns the paragraph text, not the meta-description. -/
theorem c3_extraction_strategy_order_witness :
    extractDoc sampleDoc = "abcdefghijklmnopqrstuvwxyz0123456789"
    ∧ sampleDoc.metaDescription = some "meta description over twenty chars!" := by
  constructor
  · rw [(c3_extraction_strategy_order sampleDoc).1 "abcdefghijklmnopqrstuvwxyz0123456789"
      (by decide)]
    decide
  · decide

/-- C6 counterexample: a document whose only content is a 21-space
meta-description makes the extraction return the empty string — the raw
length check passes but the returned value is trimmed — refuting "always
returns a non-empty string". -/
theorem c6_counterexample_whitespace_meta : extractDoc whitespaceMetaDoc = "" := by decide

/-- C6 (amended): the extraction returns a non-empty string for every
document, except exactly when the meta-description strategy fires on
whitespace-only content (no paragraph qualifies, and the meta-description
passes the raw 20-character test but trims to empty); in particular a
qualifying paragraph makes the result non-empty whatever the
meta-description holds, and when no strategy qualifies the sentinel
string `No meaningful content found` is returned. -/
theorem c6_extraction_nonempty (d : Doc) :
    ((d.paragraphs.find? (fun t => 30 < (jsTrim t).length) = none →
        ∀ m, d.metaDescription = some m → 20 < m.length → jsTrim m ≠ "") →
      extractDoc d ≠ "")
    ∧ (d.paragraphs.find? (fun t => 30 < (jsTrim t).length) = none →
        (∀ m, d.metaDescription = some m → ¬ 20 < m.length) →
        d.headings.find? (fun t => 10 < (jsTrim t).length) = none →
        d.contentDivs.find? (fun t => 40 < (jsTrim t).length) = none →
        d.divs.find? (fun t => 40 < (jsTrim t).length) = none →
        extractDoc d = "No meaningful content found") := by
  constructor
  · intro h
    unfold extractDoc
    cases hp : d.paragraphs.find? (fun t => 30 < (jsTrim t).length) with
    | some t =>
      have hlen := List.find?_some hp
      simp at hlen
      show jsTrim t ≠ ""
      apply string_ne_empty_of_length_pos
      omega
    | none =>
      have hmeta := h hp
      unfold extractStep2
      cases hm : d.metaDescription with
      | none => exact extractStep3_ne_empty d
      | some m =>
        by_cases hl : 20 < m.length
        · simp only [if_pos hl]
          exact hmeta m hm hl
        · simp only [if_neg hl]
          exact extractStep3_ne_empty d
  · intro hp hmeta hh hc hdiv
    cases hm : d.metaDescription with
    | none =>
      simp [extractDoc, hp, extractStep2, hm, extractStep3, hh, extractStep4, hc,
        extractStep5, hdiv]
    | some m =>
      have := hmeta m hm
      simp [extractDoc, hp, extractStep2, hm, this, extractStep3, hh, extractStep4, hc,
        extractStep5, hdiv]

/-- C6 witness: a document with a qualifying paragraph AND a 21-space
meta-description (the excluded strategy never fires) yields a non-empty
string, and the empty document yields exactly the sentinel. -/
theorem c6_extraction_nonempty_witness :
    extractDoc paraAndWhitespaceMetaDoc ≠ ""
    ∧ extractDoc emptyDoc = "No meaningful content found" := by
  constructor
  · exact (c6_extraction_nonempty paraAndWhitespaceMetaDoc).1
      (by intro hp; exact absurd hp (by decide))
  · exact (c6_extraction_nonempty emptyDoc).2 (by decide)
      (by intro m hm; simp [emptyDoc] at hm) (by decide) (by decide) (by decide)

/-- C1 counterexample: an endpoint failing with the network-level connection
error `ECONNRESET` (message without `timeout`) is called exactly once and
not retried, refuting "retries exactly when the failure is a timeout or a
network-level connection error". -/
theorem c1_counterexample_conn_error :
    specIsConnError (some "ECONNRESET") = true
    ∧ scrapeGo connReset 1 2 = ⟨"Failed to scrape: socket hang up", 1, []⟩
    ∧ (scrapeGo connReset 1 2).calls ≠ 3 := by decide

/-- C1 (amended): `scrapeWebsite` makes at most 3 fetch attempts; it retries
(after a 1000 ms wait) exactly when the axios error code is `ECONNABORTED`
or the error message contains `timeout` — any other error, including
network-level connection errors with other codes, aborts immediately — so
an always-timing-out endpoint is called exactly 3 times with two 1000 ms
waits and a non-timeout error ends after exactly one call, a failure
string being returned in both cases. -/
theorem c1_retry_policy (behavior : Nat → FetchRes) :
    (∀ url run, scrapeWebsiteModel behavior url = some run → run.calls ≤ 3)
    ∧ (∀ c1 m1 c2 m2 c3 m3,
        behavior 1 = .err c1 m1 → behavior 2 = .err c2 m2 → behavior 3 = .err c3 m3 →
        retryable c1 m1 = true → retryable c2 m2 = true →
        scrapeGo behavior 1 2 = ⟨failStr m3, 3, [1000, 1000]⟩)
    ∧ (∀ c m, behavior 1 = .err c m → retryable c m = false →
        scrapeGo behavior 1 2 = ⟨failStr m, 1, []⟩) := by
  refine ⟨?_, ?_, ?_⟩
  · intro url run h
    unfold scrapeWebsiteModel at h
    by_cases hu : url = ""
    · simp [hu] at h
    · simp [hu] at h
      rw [← h]
      exact scrapeGo_calls_le behavior 2 1
  · intro c1 m1 c2 m2 c3 m3 h1 h2 h3 r1 r2
    simp [scrapeGo, h1, r1, h2, r2, h3]
  · intro c m h1 hr
    simp [scrapeGo, h1, hr]

/-- C1 witness: the always-timeout endpoint is called exactly 3 times with
two 1000 ms waits; the 404 endpoint is called exactly once. -/
theorem c1_retry_policy_witness :
    scrapeGo alwaysTimeout 1 2 =
      ⟨"Failed to scrape: timeout of 15000ms exceeded", 3, [1000, 1000]⟩
    ∧ scrapeGo status404 1 2 =
      ⟨"Failed to scrape: Request failed with status code 404", 1, []⟩ := by
  constructor
  · rw [(c1_retry_policy alwaysTimeout).2.1 (some "ECONNABORTED")
      (some "timeout of 15000ms exceeded") (some "ECONNABORTED")
      (some "timeout of 15000ms exceeded") (some "ECONNABORTED")
      (some "timeout of 15000ms exceeded") rfl rfl rfl (by decide) (by decide)]
    decide
  · rw [(c1_retry_policy status404).2.2 none
      (some "Request failed with status code 404") rfl (by decide)]
    decide

theorem strData_append (s t : String) : (s ++ t).data = s.data ++ t.data := by
  cases s
  cases t
  rfl

theorem strLength_append (s t : String) : (s ++ t).length = s.length + t.length := by
  show (s ++ t).data.length = s.data.length + t.data.length
  rw [strData_append]
  exact List.length_append _ _

/-- C4 counterexample: a body with latitude present but equal to `0` (a
perfectly valid coordinate) is rejected with the 400 error, refuting
"returns 400 exactly when latitude or longitude is missing". -/
theorem c4_counterexample_zero_latitude :
    zeroLatBody.latitude = some 0
    ∧ POSTmodel httpDown noScrape zeroLatBody =
        .badRequest "Latitude and longitude are required" := by decide

/-- C4 (amended): the handler returns 400 with the exact error message
exactly when latitude or longitude is missing or JS-falsy (absent or 0);
when both are present and nonzero, processing proceeds to the
fetch/filter/map/scrape pipeline. -/
theorem c4_post_validation (http : PlacesRequest → Except String (List RawPlace))
    (scrape : String → Option String) (body : ReqBody) :
    (POSTmodel http scrape body = .badRequest "Latitude and longitude are required" ↔
      (numTruthy body.latitude = false ∨ numTruthy body.longitude = false))
    ∧ (numTruthy body.latitude = true → numTruthy body.longitude = true →
        POSTmodel http scrape body =
          .ok (processCompanies scrape
            (fetchNearbyCompanies http (body.latitude.getD 0) (body.longitude.getD 0)
              (body.radius.getD (5 / 2 : ℚ))).1)) := by
  constructor
  · cases hla : numTruthy body.latitude <;> cases hlo : numTruthy body.longitude <;>
      simp [POSTmodel, hla, hlo]
  · intro hla hlo
    simp [POSTmodel, hla, hlo]

/-- C4 witness: with nonzero latitude and longitude the pipeline runs (and,
with the failing transport stub, yields the empty company list). -/
theorem c4_post_validation_witness : POSTmodel httpDown noScrape okBody = .ok [] := by
  rw [(c4_post_validation httpDown noScrape okBody).2 (by decide) (by decide)]
  decide

/-- C8: `fetchNearbyCompanies` issues exactly one request, with the radius
converted to meters via `radiusKm * 1000` and the fixed limit 500; on a
transport/provider error it returns the empty list (the model is a total
function, so nothing is raised to the caller), and on success it returns
the provider's features. -/
theorem c8_fetch_nearby (http : PlacesRequest → Except String (List RawPlace))
    (lat lon radiusKm : ℚ) :
    (fetchNearbyCompanies http lat lon radiusKm).2 =
      [⟨"commercial", lat, lon, radiusKm * 1000, 500⟩]
    ∧ (∀ e, http ⟨"commercial", lat, lon, radiusKm * 1000, 500⟩ = .error e →
        (fetchNearbyCompanies http lat lon radiusKm).1 = [])
    ∧ (∀ fs, http ⟨"commercial", lat, lon, radiusKm * 1000, 500⟩ = .ok fs →
        (fetchNearbyCompanies http lat lon radiusKm).1 = fs) := by
  refine ⟨?_, ?_, ?_⟩
  · unfold fetchNearbyCompanies
    cases h : http ⟨"commercial", lat, lon, radiusKm * 1000, 500⟩ <;> simp [h]
  · intro e he
    unfold fetchNearbyCompanies
    simp [he]
  · intro fs hf
    unfold fetchNearbyCompanies
    simp [hf]

/-- C8 witness: a failing transport yields the empty list, and the single
logged request carries radius 3000 m and limit 500 for 3 km. -/
theorem c8_fetch_nearby_witness :
    (fetchNearbyCompanies httpDown 1 2 3).1 = []
    ∧ (fetchNearbyCompanies httpDown 1 2 3).2 = [⟨"commercial", 1, 2, 3000, 500⟩] := by
  constructor
  · exact (c8_fetch_nearby httpDown 1 2 3).2.1 "network down" rfl
  · rw [(c8_fetch_nearby httpDown 1 2 3).1]
    have h3 : (3 : ℚ) * 1000 = 3000 := by norm_num
    rw [h3]

/-- C9 counterexample: `ftp://example.com` carries a scheme, yet the code
prepends `https://` because the URL does not start with the literal
`http`, refuting "a URL that already carries a scheme is fetched
unchanged". -/
theorem c9_counterexample_ftp_scheme :
    specHasScheme "ftp://example.com" = true
    ∧ formatUrl "ftp://example.com" = "https://ftp://example.com" := by decide

/-- C9 (amended): before fetching, `https://` is prepended exactly when the
URL does not start with the literal `http`; a URL starting with `http` is
fetched unchanged, any other URL is genuinely altered, and the fetched URL
always starts with `http`. -/
theorem c9_url_normalization (url : String) :
    (jsStartsWith url "http" = true → formatUrl url = url)
    ∧ (jsStartsWith url "http" = false →
        formatUrl url = "https://" ++ url ∧ formatUrl url ≠ url)
    ∧ jsStartsWith (formatUrl url) "http" = true := by
  refine ⟨?_, ?_, ?_⟩
  · intro h
    simp [formatUrl, h]
  · intro h
    refine ⟨by simp [formatUrl, h], ?_⟩
    simp only [formatUrl, h, Bool.false_eq_true, if_false]
    intro he
    have hlen := congrArg String.length he
    rw [strLength_append] at hlen
    have h8 : ("https://" : String).length = 8 := rfl
    omega
  · cases h : jsStartsWith url "http"
    · simp only [formatUrl, h, Bool.false_eq_true, if_false]
      show listHasPre "http".data ("https://" ++ url).data = true
      rw [strData_append]
      rfl
    · simp [formatUrl, h]

/-- C9 witness: a schemeless URL gains `https://`; an `http://` URL passes
unchanged. -/
theorem c9_url_normalization_witness :
    formatUrl "example.com" = "https://example.com"
    ∧ formatUrl "http://example.com" = "http://example.com" := by
  constructor
  · rw [((c9_url_normalization "example.com").2.1 (by decide)).1]
    decide
  · exact (c9_url_normalization "http://example.com").1 (by decide)

/-- C5: code bug evidence.  The scraper's failure diagnostic for a timeout —
exactly the string `failStr` produces — is decoded by `getScrapeStatus` as
a SUCCESS, because the decoder only looks for the substring `ERROR:`,
which the scraper never emits; the `null` → NOT_ATTEMPTED half of the
claim does hold. -/
theorem c5_failed_marker_decoded_as_success :
    failStr (some "timeout of 15000ms exceeded") =
      "Failed to scrape: timeout of 15000ms exceeded"
    ∧ getScrapeStatus (some "Failed to scrape: timeout of 15000ms exceeded") =
        ⟨true, none⟩
    ∧ getScrapeStatus none = ⟨false, some "NOT_ATTEMPTED"⟩ := by decide
